import Mathlib

/-!
Shallow embedding of the inventory-consistency logic of the razorstats
barbershop point-of-sale application.

The embedded code, translated from the repository's source:

* the `check_item_type` CHECK constraint and the
  `update_inventory_on_product_sale` AFTER INSERT trigger on
  `transaction_items` (SQL migrations);
* the `handleMovement` manual stock-movement handler and the
  `lowStockItems` derived filter (`src/pages/Inventory.tsx`);
* the `calculateTotal` / `handleSubmit` new-transaction flow
  (`src/pages/NewTransaction.tsx`).

Identifiers (uuids in the source) are modelled as `Nat`; SQL `numeric` and
JavaScript number quantities/prices are modelled as `ℚ`; nullable columns
and optional fields as `Option`; timestamps are omitted (no claim mentions
them). Database state is a record of the four relevant tables as lists of
rows; a rejected write is modelled by returning the unchanged state with an
error (or `Except.error`), matching the fact that a failed request leaves
the store untouched.
-/

/-- Enum `transaction_item_type AS ENUM ('SERVICE', 'PRODUCT')`. -/
inductive ItemType where
  | SERVICE
  | PRODUCT
  deriving DecidableEq, Repr

/-- Direction of an inventory movement: the source enum values `'in'` and
`'out'` (`in` is a Lean keyword, hence `inflow`/`outflow`). -/
inductive MovementType where
  | inflow
  | outflow
  deriving DecidableEq, Repr

/-- Row of `inventory_items`: name, optional unique SKU, decimal quantity,
unit label, nullable minimum-quantity threshold. -/
structure InventoryItem where
  id : Nat
  name : String
  sku : Option String
  quantity : ℚ
  unit : String
  min_quantity : Option ℚ
  deriving DecidableEq, Repr

/-- Row of `inventory_movements`: item reference, direction, quantity delta,
actor (`created_by`, nullable because the trigger fills it from a scalar
subquery), free-text note. -/
structure InventoryMovement where
  item_id : Nat
  type : MovementType
  quantity : ℚ
  created_by : Option Nat
  notes : String
  deriving DecidableEq, Repr

/-- Row of `transactions`: barber reference, total, payment method,
notes, creator. -/
structure Transaction where
  id : Nat
  barber_id : Nat
  payment_method_id : Nat
  total : ℚ
  notes : String
  created_by : Nat
  deriving DecidableEq, Repr

/-- Row of `transaction_items` after the migration adding product support:
kind tag, nullable service reference, nullable inventory reference, price,
quantity, per-unit commission. -/
structure TransactionItemRow where
  transaction_id : Nat
  type : ItemType
  service_id : Option Nat
  inventory_item_id : Option Nat
  price : ℚ
  quantity : ℚ
  commission : ℚ
  deriving DecidableEq, Repr

/-- The database state: the four tables the embedded logic touches. -/
structure DB where
  transactions : List Transaction
  transaction_items : List TransactionItemRow
  inventory_items : List InventoryItem
  inventory_movements : List InventoryMovement
  deriving DecidableEq, Repr

/-- The `check_item_type` CHECK constraint on `transaction_items`:
`(type = 'SERVICE' AND service_id IS NOT NULL AND inventory_item_id IS NULL)
 OR (type = 'PRODUCT' AND inventory_item_id IS NOT NULL AND service_id IS NULL)`. -/
def check_item_type (row : TransactionItemRow) : Bool :=
  decide ((row.type = ItemType.SERVICE ∧ row.service_id.isSome ∧
             row.inventory_item_id = none) ∨
          (row.type = ItemType.PRODUCT ∧ row.inventory_item_id.isSome ∧
             row.service_id = none))

/-- The scalar subquery
`SELECT created_by FROM transactions WHERE id = NEW.transaction_id`
used by the trigger to find the actor. -/
def transactionCreator (db : DB) (tid : Nat) : Option Nat :=
  (db.transactions.find? (fun t => t.id == tid)).map (fun t => t.created_by)

/-- Trigger function `update_inventory_on_product_sale`, fired AFTER INSERT
FOR EACH ROW on `transaction_items`: when the new row has
`type = 'PRODUCT'` and a non-null `inventory_item_id`, decrement the
referenced item's quantity by the row's quantity (unconditionally) and
insert one `inventory_movements` row with direction `'out'`, the row's
quantity, the parent transaction's creator, and the fixed note template
embedding the transaction id. Otherwise do nothing. -/
def update_inventory_on_product_sale (db : DB) (new : TransactionItemRow) : DB :=
  match new.type, new.inventory_item_id with
  | ItemType.PRODUCT, some iid =>
      { db with
        inventory_items := db.inventory_items.map (fun it =>
          if it.id = iid then { it with quantity := it.quantity - new.quantity } else it),
        inventory_movements := db.inventory_movements ++
          [{ item_id := iid
             type := MovementType.outflow
             quantity := new.quantity
             created_by := transactionCreator db new.transaction_id
             notes := "Venda automática - Transaction ID: " ++ toString new.transaction_id }] }
  | _, _ => db

/-- Insertion of a `transaction_items` row: the CHECK constraint gates the
insert (a violating row is rejected and nothing is persisted); on success
the row is appended and the AFTER INSERT trigger runs on the new state. -/
def insert_transaction_item (db : DB) (row : TransactionItemRow) : Except String DB :=
  if check_item_type row then
    Except.ok (update_inventory_on_product_sale
      { db with transaction_items := db.transaction_items ++ [row] } row)
  else
    Except.error "check_item_type constraint violation"

/-- Errors surfaced by the manual movement handler: the
"Preencha todos os campos" guard (missing/non-positive input) and the
"Quantidade insuficiente em estoque" insufficient-stock rejection. -/
inductive MovementError where
  | missingFields
  | insufficientStock
  deriving DecidableEq, Repr

/-- The candidate new quantity computed by `handleMovement`:
`movement.type === 'in' ? quantity + q : quantity - q`. -/
def movementNewQuantity (selectedItem : InventoryItem) (mtype : MovementType) (mq : ℚ) : ℚ :=
  match mtype with
  | MovementType.inflow => selectedItem.quantity + mq
  | MovementType.outflow => selectedItem.quantity - mq

/-- First half of `handleMovement` (`src/pages/Inventory.tsx`), up to and
including the first write: reject non-positive quantity, reject a negative
candidate quantity before any write, otherwise insert the
`inventory_movements` row. The item update is a separate second request
(`itemUpdatePhase`). An error leaves the state unchanged. -/
def movementInsertPhase (db : DB) (selectedItem : InventoryItem) (mtype : MovementType)
    (mq : ℚ) (mnotes : String) (userId : Nat) : DB × Option MovementError :=
  if mq ≤ 0 then (db, some MovementError.missingFields)
  else if movementNewQuantity selectedItem mtype mq < 0 then
    (db, some MovementError.insufficientStock)
  else
    ({ db with inventory_movements := db.inventory_movements ++
        [{ item_id := selectedItem.id
           type := mtype
           quantity := mq
           created_by := some userId
           notes := mnotes }] }, none)

/-- Second half of `handleMovement`: the separate
`update inventory_items set quantity = newQuantity where id = selectedItem.id`
request. -/
def itemUpdatePhase (db : DB) (itemId : Nat) (newQuantity : ℚ) : DB :=
  { db with inventory_items := db.inventory_items.map (fun it =>
      if it.id = itemId then { it with quantity := newQuantity } else it) }

/-- `handleMovement` from `src/pages/Inventory.tsx`: the insert phase
followed, when it succeeded, by the item-quantity update. -/
def handleMovement (db : DB) (selectedItem : InventoryItem) (mtype : MovementType)
    (mq : ℚ) (mnotes : String) (userId : Nat) : DB × Option MovementError :=
  match movementInsertPhase db selectedItem mtype mq mnotes userId with
  | (db1, some e) => (db1, some e)
  | (db1, none) =>
      (itemUpdatePhase db1 selectedItem.id (movementNewQuantity selectedItem mtype mq), none)

/-- JavaScript condition `item.min_quantity && item.quantity <= item.min_quantity`
from the `lowStockItems` filter: a null `min_quantity` is falsy, and so is a
zero one (JS number truthiness), in which case the comparison is never
evaluated. -/
def isLowStock (item : InventoryItem) : Bool :=
  match item.min_quantity with
  | none => false
  | some m => decide (m ≠ 0) && decide (item.quantity ≤ m)

/-- `lowStockItems` derived list from `src/pages/Inventory.tsx`. -/
def lowStockItems (items : List InventoryItem) : List InventoryItem :=
  items.filter isLowStock

/-- The item the manual-movement dialog operates on: the UI looks the
selected item up among the loaded rows; with no item selected the handler
rejects ("Preencha todos os campos"). -/
def manualMovementById (db : DB) (itemId : Nat) (mtype : MovementType)
    (mq : ℚ) (mnotes : String) (userId : Nat) : DB × Option MovementError :=
  match db.inventory_items.find? (fun it => it.id == itemId) with
  | none => (db, some MovementError.missingFields)
  | some item => handleMovement db item mtype mq mnotes userId

/-- A sequence of manual movement requests against one item, each issued
against the state left by the previous one (the screen re-fetches after
every successful mutation); the run stops at the first failure. -/
def runManualMovements (db : DB) (itemId : Nat) (userId : Nat) :
    List (MovementType × ℚ × String) → DB × Option MovementError
  | [] => (db, none)
  | r :: rs =>
      match manualMovementById db itemId r.1 r.2.1 r.2.2 userId with
      | (db1, none) => runManualMovements db1 itemId userId rs
      | (db1, some e) => (db1, some e)

/-- Movement rows recorded for a given item. -/
def movementsFor (db : DB) (itemId : Nat) : List InventoryMovement :=
  db.inventory_movements.filter (fun m => m.item_id == itemId)

/-- Signed quantity of a movement row: `in` counts positive, `out` negative. -/
def signedQuantity (m : InventoryMovement) : ℚ :=
  match m.type with
  | MovementType.inflow => m.quantity
  | MovementType.outflow => -m.quantity

/-- Sum of signed quantities over all movement rows of an item. -/
def signedSum (db : DB) (itemId : Nat) : ℚ :=
  ((movementsFor db itemId).map signedQuantity).sum

/-- Form-state line item of the new-transaction screen
(`interface TransactionItem` in `src/pages/NewTransaction.tsx`). -/
structure TransactionItem where
  type : ItemType
  serviceId : Option Nat
  productId : Option Nat
  quantity : ℚ
  price : ℚ
  commission : ℚ
  deriving DecidableEq, Repr

/-- `calculateTotal` from `src/pages/NewTransaction.tsx`:
`items.reduce((sum, item) => sum + item.price * item.quantity, 0)`. -/
def calculateTotal (items : List TransactionItem) : ℚ :=
  items.foldl (fun sum item => sum + item.price * item.quantity) 0

/-- `calculateCommission` from `src/pages/NewTransaction.tsx`. -/
def calculateCommission (items : List TransactionItem) : ℚ :=
  items.foldl (fun sum item => sum + item.commission * item.quantity) 0

/-- The `itemsToInsert` mapping of `handleSubmit`: form items become
`transaction_items` rows, with `service_id` kept only for SERVICE lines and
`inventory_item_id` only for PRODUCT lines. -/
def itemsToInsert (transactionId : Nat) (items : List TransactionItem) :
    List TransactionItemRow :=
  items.map (fun item =>
    { transaction_id := transactionId
      type := item.type
      service_id := if item.type = ItemType.SERVICE then item.serviceId else none
      inventory_item_id := if item.type = ItemType.PRODUCT then item.productId else none
      price := item.price
      quantity := item.quantity
      commission := item.commission })

/-- `handleSubmit` from `src/pages/NewTransaction.tsx`, as the rows it sends
to the backend: rejects when no barber or payment method is selected or the
item list is empty; otherwise builds the `transactions` row (with
`total = calculateTotal()`) and the mapped `transaction_items` rows.
`transactionId` stands for the id the backend generates for the new row. -/
def handleSubmit (selectedBarberId selectedPaymentMethodId : Option Nat)
    (items : List TransactionItem) (notes : String) (userId : Nat)
    (transactionId : Nat) : Option (Transaction × List TransactionItemRow) :=
  match selectedBarberId, selectedPaymentMethodId with
  | some b, some pm =>
      if items.isEmpty then none
      else
        some ({ id := transactionId
                barber_id := b
                payment_method_id := pm
                total := calculateTotal items
                notes := notes
                created_by := userId }, itemsToInsert transactionId items)
  | _, _ => none

/-! Basic facts about the embedded operations. -/

/-- Pairing invariant as the specification states it: exactly one of the
service reference and the inventory reference is non-null, and it matches
the kind tag. -/
def pairingOk (r : TransactionItemRow) : Prop :=
  ((r.service_id.isSome ∧ r.inventory_item_id = none) ∨
    (r.inventory_item_id.isSome ∧ r.service_id = none)) ∧
  (r.type = ItemType.SERVICE → r.service_id.isSome ∧ r.inventory_item_id = none) ∧
  (r.type = ItemType.PRODUCT → r.inventory_item_id.isSome ∧ r.service_id = none)

instance (r : TransactionItemRow) : Decidable (pairingOk r) := by
  unfold pairingOk; infer_instance

theorem check_item_type_iff (r : TransactionItemRow) :
    check_item_type r = true ↔ pairingOk r := by
  obtain ⟨tid, ty, sid, iid, p, q, c⟩ := r
  cases ty <;> simp [check_item_type, pairingOk] <;> tauto

theorem update_inventory_transaction_items (db : DB) (new : TransactionItemRow) :
    (update_inventory_on_product_sale db new).transaction_items = db.transaction_items := by
  unfold update_inventory_on_product_sale
  rcases new with ⟨tid, ty, sid, iid, p, q, c⟩
  cases ty <;> cases iid <;> rfl

/-- C2: every persisted `transaction_items` row pairs its references with its
kind tag (SERVICE keeps exactly the service reference, PRODUCT exactly the
inventory reference), and inserting any candidate row violating this pairing
is rejected by the CHECK constraint: the invariant is preserved by every
insert. -/
theorem transaction_items_pairing_invariant (db : DB) (row : TransactionItemRow)
    (hdb : ∀ r ∈ db.transaction_items, pairingOk r) :
    (¬ pairingOk row →
      insert_transaction_item db row = Except.error "check_item_type constraint violation") ∧
    (∀ db', insert_transaction_item db row = Except.ok db' →
      ∀ r ∈ db'.transaction_items, pairingOk r) := by
  constructor
  · intro hbad
    unfold insert_transaction_item
    rw [if_neg]
    intro hchk
    exact hbad ((check_item_type_iff row).mp hchk)
  · intro db' hok r hr
    unfold insert_transaction_item at hok
    by_cases hchk : check_item_type row = true
    · rw [if_pos hchk] at hok
      injection hok with hok
      rw [← hok, update_inventory_transaction_items] at hr
      simp only [List.mem_append, List.mem_singleton] at hr
      rcases hr with hr | rfl
      · exact hdb r hr
      · exact (check_item_type_iff r).mp hchk
    · rw [if_neg hchk] at hok
      exact absurd hok (by simp)

/-- Empty database, used as a concrete starting state. -/
def emptyDB : DB := ⟨[], [], [], []⟩

/-- Candidate row violating the pairing: SERVICE kind with no service
reference. -/
def badRow : TransactionItemRow :=
  ⟨1, ItemType.SERVICE, none, none, 0, 1, 0⟩

/-- Witness for C2: the invariant theorem applied to the empty database and
a concrete violating row. -/
theorem transaction_items_pairing_invariant_witness :
    (¬ pairingOk badRow →
      insert_transaction_item emptyDB badRow =
        Except.error "check_item_type constraint violation") ∧
    (∀ db', insert_transaction_item emptyDB badRow = Except.ok db' →
      ∀ r ∈ db'.transaction_items, pairingOk r) :=
  transaction_items_pairing_invariant emptyDB badRow (by simp [emptyDB])

theorem insert_product_eq (db : DB) (row : TransactionItemRow) (iid : Nat)
    (hty : row.type = ItemType.PRODUCT)
    (hinv : row.inventory_item_id = some iid)
    (hsvc : row.service_id = none) :
    insert_transaction_item db row = Except.ok
      { transactions := db.transactions
        transaction_items := db.transaction_items ++ [row]
        inventory_items := db.inventory_items.map (fun it =>
          if it.id = iid then { it with quantity := it.quantity - row.quantity } else it)
        inventory_movements := db.inventory_movements ++
          [{ item_id := iid
             type := MovementType.outflow
             quantity := row.quantity
             created_by := transactionCreator db row.transaction_id
             notes := "Venda automática - Transaction ID: " ++ toString row.transaction_id }] } := by
  have hchk : check_item_type row = true := by
    simp [check_item_type, hty, hinv, hsvc]
  rw [insert_transaction_item, if_pos hchk, update_inventory_on_product_sale]
  simp only [hty, hinv]
  rfl

/-- C1: inserting a PRODUCT-kind item with quantity Q against the inventory
item it references (starting quantity S) succeeds through the trigger,
sets that item's quantity to S − Q, appends exactly one movement row with
direction `out`, quantity Q, actor equal to the parent transaction's
creator, and the fixed note embedding the transaction id; inventory items
with a different id are untouched. -/
theorem product_sale_inventory_update (db : DB) (row : TransactionItemRow)
    (iid : Nat) (tx : Transaction)
    (hty : row.type = ItemType.PRODUCT)
    (hinv : row.inventory_item_id = some iid)
    (hsvc : row.service_id = none)
    (htx : db.transactions.find? (fun t => t.id == row.transaction_id) = some tx) :
    ∃ db', insert_transaction_item db row = Except.ok db' ∧
      db'.inventory_movements = db.inventory_movements ++
        [{ item_id := iid
           type := MovementType.outflow
           quantity := row.quantity
           created_by := some tx.created_by
           notes := "Venda automática - Transaction ID: " ++ toString row.transaction_id }] ∧
      db'.inventory_items = db.inventory_items.map (fun it =>
        if it.id = iid then { it with quantity := it.quantity - row.quantity } else it) ∧
      (∀ it ∈ db.inventory_items, it.id ≠ iid → it ∈ db'.inventory_items) ∧
      (∀ it ∈ db.inventory_items, it.id = iid →
        { it with quantity := it.quantity - row.quantity } ∈ db'.inventory_items) := by
  refine ⟨_, insert_product_eq db row iid hty hinv hsvc, ?_, rfl, ?_, ?_⟩
  · simp [transactionCreator, htx]
  · intro it hmem hne
    have h2 : (if it.id = iid then { it with quantity := it.quantity - row.quantity } else it)
        ∈ db.inventory_items.map (fun it =>
          if it.id = iid then { it with quantity := it.quantity - row.quantity } else it) :=
      List.mem_map_of_mem _ hmem
    rw [if_neg hne] at h2
    exact h2
  · intro it hmem heq
    have h2 : (if it.id = iid then { it with quantity := it.quantity - row.quantity } else it)
        ∈ db.inventory_items.map (fun it =>
          if it.id = iid then { it with quantity := it.quantity - row.quantity } else it) :=
      List.mem_map_of_mem _ hmem
    rw [if_pos heq] at h2
    exact h2

/-- Inventory item referenced by the concrete product sale: stock 2. -/
def saleItem : InventoryItem := ⟨1, "Pomada", none, 2, "un", some 1⟩

/-- Parent transaction of the concrete product sale, created by user 7. -/
def saleTx : Transaction := ⟨10, 3, 4, 0, "", 7⟩

/-- Concrete database holding the parent transaction and the stocked item. -/
def saleDB : DB := ⟨[saleTx], [], [saleItem], []⟩

/-- PRODUCT-kind line item selling quantity 5 of item 1. -/
def saleRow : TransactionItemRow := ⟨10, ItemType.PRODUCT, none, some 1, 30, 5, 0⟩

/-- Witness for C1: the trigger theorem applied to the concrete sale. -/
theorem product_sale_inventory_update_witness :
    saleRow.type = ItemType.PRODUCT ∧ saleRow.inventory_item_id = some 1 ∧
    saleRow.service_id = none ∧
    saleDB.transactions.find? (fun t => t.id == saleRow.transaction_id) = some saleTx ∧
    ∃ db', insert_transaction_item saleDB saleRow = Except.ok db' ∧
      db'.inventory_movements = saleDB.inventory_movements ++
        [{ item_id := 1
           type := MovementType.outflow
           quantity := saleRow.quantity
           created_by := some saleTx.created_by
           notes := "Venda automática - Transaction ID: " ++ toString saleRow.transaction_id }] ∧
      db'.inventory_items = saleDB.inventory_items.map (fun it =>
        if it.id = 1 then { it with quantity := it.quantity - saleRow.quantity } else it) ∧
      (∀ it ∈ saleDB.inventory_items, it.id ≠ 1 → it ∈ db'.inventory_items) ∧
      (∀ it ∈ saleDB.inventory_items, it.id = 1 →
        { it with quantity := it.quantity - saleRow.quantity } ∈ db'.inventory_items) :=
  ⟨by decide, by decide, by decide, by decide,
    product_sale_inventory_update saleDB saleRow 1 saleTx
      (by decide) (by decide) (by decide) (by decide)⟩

/-- C4: the trigger decrement is unconditional — selling quantity 5 of an
item stocked at 2 is not rejected and drives the stored quantity to −3,
with no non-negativity check on the trigger path. -/
theorem unconditional_decrement_negative_stock :
    (insert_transaction_item saleDB saleRow).toOption.map
      (fun db' => db'.inventory_items.map (fun it => it.quantity)) = some [(-3 : ℚ)] := by
  rw [insert_product_eq saleDB saleRow 1 rfl rfl rfl]
  norm_num [saleDB, saleItem, saleRow]
  exact ⟨_, rfl, rfl⟩

/-- C6: a successful insert of a SERVICE-kind item changes no inventory item
and creates no movement row, while a successful insert of a PRODUCT-kind
item creates exactly one movement row. -/
theorem service_item_frame (db : DB) (row : TransactionItemRow) (db' : DB)
    (hok : insert_transaction_item db row = Except.ok db') :
    (row.type = ItemType.SERVICE →
      db'.inventory_items = db.inventory_items ∧
      db'.inventory_movements = db.inventory_movements) ∧
    (row.type = ItemType.PRODUCT →
      db'.inventory_movements.length = db.inventory_movements.length + 1) := by
  unfold insert_transaction_item at hok
  by_cases hchk : check_item_type row = true
  · rw [if_pos hchk] at hok
    injection hok with hok
    constructor
    · intro hty
      rw [← hok, update_inventory_on_product_sale]
      rw [hty]
      exact ⟨rfl, rfl⟩
    · intro hty
      have hinv : row.inventory_item_id.isSome = true := by
        rw [check_item_type, decide_eq_true_eq] at hchk
        rcases hchk with ⟨h, -⟩ | ⟨-, h, -⟩
        · rw [hty] at h; cases h
        · exact h
      cases hiid : row.inventory_item_id with
      | none => rw [hiid] at hinv; simp at hinv
      | some iid =>
          rw [← hok, update_inventory_on_product_sale]
          simp only [hty, hiid]
          simp
  · rw [if_neg hchk] at hok
    exact absurd hok (by simp)

/-- SERVICE-kind line item used in the frame witness. -/
def svcRow : TransactionItemRow := ⟨10, ItemType.SERVICE, some 2, none, 30, 1, 0⟩

/-- Witness for C6: the frame theorem applied to a concrete SERVICE insert. -/
theorem service_item_frame_witness :
    insert_transaction_item saleDB svcRow =
      Except.ok { saleDB with transaction_items := [svcRow] } ∧
    ((svcRow.type = ItemType.SERVICE →
      ({ saleDB with transaction_items := [svcRow] } : DB).inventory_items =
        saleDB.inventory_items ∧
      ({ saleDB with transaction_items := [svcRow] } : DB).inventory_movements =
        saleDB.inventory_movements) ∧
    (svcRow.type = ItemType.PRODUCT →
      ({ saleDB with transaction_items := [svcRow] } : DB).inventory_movements.length =
        saleDB.inventory_movements.length + 1)) :=
  ⟨by rfl, service_item_frame saleDB svcRow _ (by rfl)⟩

theorem handleMovement_nonpos (db : DB) (item : InventoryItem) (mtype : MovementType)
    (mq : ℚ) (mnotes : String) (userId : Nat) (h : mq ≤ 0) :
    handleMovement db item mtype mq mnotes userId = (db, some MovementError.missingFields) := by
  unfold handleMovement movementInsertPhase
  rw [if_pos h]

theorem handleMovement_insufficient (db : DB) (item : InventoryItem) (mtype : MovementType)
    (mq : ℚ) (mnotes : String) (userId : Nat) (h1 : ¬ mq ≤ 0)
    (h2 : movementNewQuantity item mtype mq < 0) :
    handleMovement db item mtype mq mnotes userId =
      (db, some MovementError.insufficientStock) := by
  unfold handleMovement movementInsertPhase
  rw [if_neg h1, if_pos h2]

theorem handleMovement_success (db : DB) (item : InventoryItem) (mtype : MovementType)
    (mq : ℚ) (mnotes : String) (userId : Nat) (h1 : ¬ mq ≤ 0)
    (h2 : ¬ movementNewQuantity item mtype mq < 0) :
    handleMovement db item mtype mq mnotes userId =
      ({ transactions := db.transactions
         transaction_items := db.transaction_items
         inventory_items := db.inventory_items.map (fun it =>
           if it.id = item.id then
             { it with quantity := movementNewQuantity item mtype mq } else it)
         inventory_movements := db.inventory_movements ++
           [⟨item.id, mtype, mq, some userId, mnotes⟩] }, none) := by
  unfold handleMovement movementInsertPhase itemUpdatePhase
  rw [if_neg h1, if_neg h2]

/-- C3 (amended): for a manual `out` movement with positive quantity Q
against an item with current quantity S: Q > S is rejected with the
insufficient-stock error and nothing is written; Q ≤ S sets the item's
quantity to S − Q (which is then ≥ 0: this path never drives quantity
negative) and writes exactly one movement row; a request with Q ≤ 0 is
rejected by the input guard with no writes. -/
theorem manual_out_movement (db : DB) (item : InventoryItem) (mq : ℚ)
    (mnotes : String) (userId : Nat) :
    (mq ≤ 0 → handleMovement db item MovementType.outflow mq mnotes userId =
      (db, some MovementError.missingFields)) ∧
    (0 < mq → item.quantity < mq →
      handleMovement db item MovementType.outflow mq mnotes userId =
        (db, some MovementError.insufficientStock)) ∧
    (0 < mq → mq ≤ item.quantity →
      handleMovement db item MovementType.outflow mq mnotes userId =
        ({ transactions := db.transactions
           transaction_items := db.transaction_items
           inventory_items := db.inventory_items.map (fun it =>
             if it.id = item.id then { it with quantity := item.quantity - mq } else it)
           inventory_movements := db.inventory_movements ++
             [⟨item.id, MovementType.outflow, mq, some userId, mnotes⟩] }, none) ∧
      0 ≤ item.quantity - mq) := by
  refine ⟨fun h => handleMovement_nonpos db item _ mq mnotes userId h, ?_, ?_⟩
  · intro hq hlt
    have h2 : movementNewQuantity item MovementType.outflow mq < 0 := by
      show item.quantity - mq < 0
      linarith
    exact handleMovement_insufficient db item _ mq mnotes userId (not_le.mpr hq) h2
  · intro hq hle
    have h2 : ¬ movementNewQuantity item MovementType.outflow mq < 0 := by
      show ¬ item.quantity - mq < 0
      push_neg
      linarith
    constructor
    · rw [handleMovement_success db item _ mq mnotes userId (not_le.mpr hq) h2]
      rfl
    · linarith

/-- Concrete stocked item (quantity 5) for the manual-path results. -/
def stockItem : InventoryItem := ⟨1, "Shampoo", none, 5, "un", none⟩

/-- Concrete database holding only `stockItem`. -/
def stockDB : DB := ⟨[], [], [stockItem], []⟩

/-- Counterexample to C3 as stated: Q = 0 satisfies Q ≤ S = 5, yet the
request is rejected by the input guard and no movement row is written. -/
theorem manual_out_movement_claim_counterexample :
    (0 : ℚ) ≤ stockItem.quantity ∧
    handleMovement stockDB stockItem MovementType.outflow 0 "" 7 =
      (stockDB, some MovementError.missingFields) ∧
    (handleMovement stockDB stockItem MovementType.outflow 0 "" 7).1.inventory_movements.length ≠
      stockDB.inventory_movements.length + 1 := by
  decide

/-- Witness for C3: the amended theorem applied at concrete inputs hitting
all three branches (Q = −1 invalid, Q = 7 > 5 insufficient, Q = 2 ≤ 5
success). -/
theorem manual_out_movement_witness :
    handleMovement stockDB stockItem MovementType.outflow (-1) "" 7 =
      (stockDB, some MovementError.missingFields) ∧
    handleMovement stockDB stockItem MovementType.outflow 7 "" 7 =
      (stockDB, some MovementError.insufficientStock) ∧
    (handleMovement stockDB stockItem MovementType.outflow 2 "venda" 7 =
      ({ transactions := stockDB.transactions
         transaction_items := stockDB.transaction_items
         inventory_items := stockDB.inventory_items.map (fun it =>
           if it.id = stockItem.id then
             { it with quantity := stockItem.quantity - 2 } else it)
         inventory_movements := stockDB.inventory_movements ++
           [⟨stockItem.id, MovementType.outflow, 2, some 7, "venda"⟩] }, none) ∧
      0 ≤ stockItem.quantity - 2) :=
  ⟨(manual_out_movement stockDB stockItem (-1) "" 7).1 (by norm_num),
   (manual_out_movement stockDB stockItem 7 "" 7).2.1 (by norm_num)
     (by show (5 : ℚ) < 7; norm_num),
   (manual_out_movement stockDB stockItem 2 "venda" 7).2.2 (by norm_num)
     (by show (2 : ℚ) ≤ 5; norm_num)⟩

/-- C5 (amended): a manual `in` movement with positive quantity Q sets the
item's quantity to S + Q — with no upper bound — and writes exactly one
movement row, provided S + Q ≥ 0 (automatic whenever S ≥ 0); when
S + Q < 0 (reachable only from negative stock) the shared non-negativity
check rejects it, and Q ≤ 0 is rejected by the input guard. In all
rejection cases nothing is written. -/
theorem manual_in_movement (db : DB) (item : InventoryItem) (mq : ℚ)
    (mnotes : String) (userId : Nat) :
    (mq ≤ 0 → handleMovement db item MovementType.inflow mq mnotes userId =
      (db, some MovementError.missingFields)) ∧
    (0 < mq → item.quantity + mq < 0 →
      handleMovement db item MovementType.inflow mq mnotes userId =
        (db, some MovementError.insufficientStock)) ∧
    (0 < mq → 0 ≤ item.quantity + mq →
      handleMovement db item MovementType.inflow mq mnotes userId =
        ({ transactions := db.transactions
           transaction_items := db.transaction_items
           inventory_items := db.inventory_items.map (fun it =>
             if it.id = item.id then { it with quantity := item.quantity + mq } else it)
           inventory_movements := db.inventory_movements ++
             [⟨item.id, MovementType.inflow, mq, some userId, mnotes⟩] }, none)) := by
  refine ⟨fun h => handleMovement_nonpos db item _ mq mnotes userId h, ?_, ?_⟩
  · intro hq hlt
    have h2 : movementNewQuantity item MovementType.inflow mq < 0 := by
      show item.quantity + mq < 0
      linarith
    exact handleMovement_insufficient db item _ mq mnotes userId (not_le.mpr hq) h2
  · intro hq hnn
    have h2 : ¬ movementNewQuantity item MovementType.inflow mq < 0 := by
      show ¬ item.quantity + mq < 0
      push_neg
      linarith
    rw [handleMovement_success db item _ mq mnotes userId (not_le.mpr hq) h2]
    rfl

/-- Item with negative stock (reachable through the unconditional trigger
decrement), used to refute the unconditional-increment reading of C5. -/
def negItem : InventoryItem := ⟨2, "Gel", none, -5, "un", none⟩

/-- Concrete database holding only `negItem`. -/
def negDB : DB := ⟨[], [], [negItem], []⟩

/-- Counterexample to C5 as stated: direction `in`, Q = 2 > 0 against
quantity −5 — the claim predicts quantity −3 and one new movement row, but
the handler rejects with the insufficient-stock error and writes nothing. -/
theorem manual_in_movement_claim_counterexample :
    (0 : ℚ) < 2 ∧
    handleMovement negDB negItem MovementType.inflow 2 "" 7 =
      (negDB, some MovementError.insufficientStock) ∧
    (handleMovement negDB negItem MovementType.inflow 2 "" 7).1.inventory_movements.length ≠
      negDB.inventory_movements.length + 1 := by
  have h2 : movementNewQuantity negItem MovementType.inflow 2 < 0 := by
    show negItem.quantity + 2 < 0
    norm_num [negItem]
  have hres := handleMovement_insufficient negDB negItem MovementType.inflow 2 "" 7
    (by norm_num) h2
  refine ⟨by norm_num, hres, ?_⟩
  rw [hres]
  decide

/-- Witness for C5: the amended theorem applied at concrete inputs hitting
all three branches. -/
theorem manual_in_movement_witness :
    handleMovement stockDB stockItem MovementType.inflow (-1) "" 7 =
      (stockDB, some MovementError.missingFields) ∧
    handleMovement negDB negItem MovementType.inflow 2 "" 7 =
      (negDB, some MovementError.insufficientStock) ∧
    handleMovement stockDB stockItem MovementType.inflow 3 "compra" 7 =
      ({ transactions := stockDB.transactions
         transaction_items := stockDB.transaction_items
         inventory_items := stockDB.inventory_items.map (fun it =>
           if it.id = stockItem.id then
             { it with quantity := stockItem.quantity + 3 } else it)
         inventory_movements := stockDB.inventory_movements ++
           [⟨stockItem.id, MovementType.inflow, 3, some 7, "compra"⟩] }, none) :=
  ⟨(manual_in_movement stockDB stockItem (-1) "" 7).1 (by norm_num),
   (manual_in_movement negDB negItem 2 "" 7).2.1 (by norm_num)
     (by show (-5 : ℚ) + 2 < 0; norm_num),
   (manual_in_movement stockDB stockItem 3 "compra" 7).2.2 (by norm_num)
     (by show (0 : ℚ) ≤ 5 + 3; norm_num)⟩

/-- C8: in the manual path the non-negativity check precedes any write (a
rejection leaves the state unchanged); the movement row is the first write
and the item update a separate second request, so the state between the two
writes — the one left behind if the update request fails — has the movement
row persisted while every inventory quantity is unchanged. -/
theorem manual_movement_write_order (db : DB) (item : InventoryItem) (mtype : MovementType)
    (mq : ℚ) (mnotes : String) (userId : Nat) :
    ((movementInsertPhase db item mtype mq mnotes userId).2.isSome →
      (movementInsertPhase db item mtype mq mnotes userId).1 = db) ∧
    (∀ db1, movementInsertPhase db item mtype mq mnotes userId = (db1, none) →
      db1.inventory_items = db.inventory_items ∧
      db1.inventory_movements = db.inventory_movements ++
        [⟨item.id, mtype, mq, some userId, mnotes⟩] ∧
      handleMovement db item mtype mq mnotes userId =
        (itemUpdatePhase db1 item.id (movementNewQuantity item mtype mq), none)) := by
  constructor
  · intro h
    unfold movementInsertPhase
    by_cases h1 : mq ≤ 0
    · rw [if_pos h1]
    · rw [if_neg h1]
      by_cases h2 : movementNewQuantity item mtype mq < 0
      · rw [if_pos h2]
      · unfold movementInsertPhase at h
        rw [if_neg h1, if_neg h2] at h
        simp at h
  · intro db1 hphase
    unfold movementInsertPhase at hphase
    by_cases h1 : mq ≤ 0
    · rw [if_pos h1] at hphase
      simp at hphase
    · rw [if_neg h1] at hphase
      by_cases h2 : movementNewQuantity item mtype mq < 0
      · rw [if_pos h2] at hphase
        simp at hphase
      · rw [if_neg h2] at hphase
        injection hphase with ha hb
        subst ha
        refine ⟨rfl, rfl, ?_⟩
        unfold handleMovement movementInsertPhase
        rw [if_neg h1, if_neg h2]

/-- C9 (amended): an item is reported low-stock exactly when its minimum
quantity is configured with a non-zero value and its quantity is at or
below that minimum; an item whose minimum quantity is unset — or set to 0,
which JavaScript truthiness treats the same as unset — is never reported. -/
theorem lowstock_classification (items : List InventoryItem) (item : InventoryItem)
    (hmem : item ∈ items) :
    item ∈ lowStockItems items ↔
      ∃ m, item.min_quantity = some m ∧ m ≠ 0 ∧ item.quantity ≤ m := by
  unfold lowStockItems
  rw [List.mem_filter]
  constructor
  · rintro ⟨-, hlow⟩
    unfold isLowStock at hlow
    cases hmin : item.min_quantity with
    | none => rw [hmin] at hlow; cases hlow
    | some m =>
        rw [hmin] at hlow
        simp only [Bool.and_eq_true, decide_eq_true_eq] at hlow
        exact ⟨m, rfl, hlow.1, hlow.2⟩
  · rintro ⟨m, hmin, hne, hle⟩
    refine ⟨hmem, ?_⟩
    unfold isLowStock
    rw [hmin]
    simp [hne, hle]

/-- Item whose configured minimum is 0: below (at) its minimum but never
reported, because `0` is falsy in the JavaScript filter condition. -/
def zeroMinItem : InventoryItem := ⟨3, "Cera", none, 0, "un", some 0⟩

/-- Counterexample to C9 as stated: `zeroMinItem` has a configured minimum
quantity (0) and quantity ≤ minimum, yet it is not classified low-stock. -/
theorem lowstock_claim_counterexample :
    zeroMinItem.min_quantity = some 0 ∧
    zeroMinItem.quantity ≤ 0 ∧
    zeroMinItem ∉ lowStockItems [zeroMinItem] := by
  refine ⟨rfl, by decide, ?_⟩
  decide

/-- Item genuinely below its non-zero minimum. -/
def lowItem : InventoryItem := ⟨4, "Navalha", none, 1, "un", some 2⟩

/-- Witness for C9: the amended classification applied to a concrete item. -/
theorem lowstock_classification_witness :
    lowItem ∈ [lowItem] ∧
    (lowItem ∈ lowStockItems [lowItem] ↔
      ∃ m, lowItem.min_quantity = some m ∧ m ≠ 0 ∧ lowItem.quantity ≤ m) :=
  ⟨by decide, lowstock_classification [lowItem] lowItem (by decide)⟩

theorem calculateTotal_foldl (items : List TransactionItem) :
    ∀ a : ℚ, items.foldl (fun sum item => sum + item.price * item.quantity) a =
      a + (items.map (fun i => i.price * i.quantity)).sum := by
  induction items with
  | nil => intro a; simp
  | cons x xs ih =>
      intro a
      rw [List.foldl_cons, ih, List.map_cons, List.sum_cons]
      ring

theorem calculateTotal_eq_sum (items : List TransactionItem) :
    calculateTotal items = (items.map (fun i => i.price * i.quantity)).sum := by
  rw [calculateTotal, calculateTotal_foldl]
  ring

/-- C10: a transaction accepted by the new-transaction flow is persisted
with total equal to the sum of price × quantity over its line items; the
per-unit commission amounts contribute nothing to the stored total (any
item list agreeing on prices and quantities yields the same total). -/
theorem transaction_total (b pm : Option Nat) (items : List TransactionItem)
    (notes : String) (userId transactionId : Nat) (tx : Transaction)
    (rows : List TransactionItemRow)
    (h : handleSubmit b pm items notes userId transactionId = some (tx, rows)) :
    tx.total = (items.map (fun i => i.price * i.quantity)).sum ∧
    ∀ items2 : List TransactionItem,
      items2.map (fun i => (i.price, i.quantity)) = items.map (fun i => (i.price, i.quantity)) →
      calculateTotal items2 = calculateTotal items := by
  have key : ∀ l : List TransactionItem,
      calculateTotal l =
        ((l.map (fun i => (i.price, i.quantity))).map (fun pq => pq.1 * pq.2)).sum := by
    intro l
    rw [List.map_map, calculateTotal_eq_sum]
    rfl
  constructor
  · unfold handleSubmit at h
    split at h
    · split at h
      · cases h
      · injection h with h
        injection h with h1 h2
        rw [← h1]
        exact calculateTotal_eq_sum items
    · cases h
  · intro items2 heq
    rw [key items2, key items, heq]

/-- Concrete form line item: a service priced 30, quantity 2, commission 10. -/
def txItem : TransactionItem := ⟨ItemType.SERVICE, some 1, none, 2, 30, 10⟩

/-- Witness for C10: the total theorem applied to a concrete submission. -/
theorem transaction_total_witness :
    (({ id := 42, barber_id := 3, payment_method_id := 4, total := calculateTotal [txItem],
        notes := "ok", created_by := 7 } : Transaction).total =
      ([txItem].map (fun i => i.price * i.quantity)).sum) ∧
    ∀ items2 : List TransactionItem,
      items2.map (fun i => (i.price, i.quantity)) = [txItem].map (fun i => (i.price, i.quantity)) →
      calculateTotal items2 = calculateTotal [txItem] :=
  transaction_total (some 3) (some 4) [txItem] "ok" 7 42
    { id := 42, barber_id := 3, payment_method_id := 4, total := calculateTotal [txItem],
      notes := "ok", created_by := 7 }
    (itemsToInsert 42 [txItem]) (by rfl)

theorem find?_of_filter_singleton {α : Type} (p : α → Bool) (l : List α) (a : α)
    (h : l.filter p = [a]) : l.find? p = some a := by
  induction l with
  | nil => simp at h
  | cons x xs ih =>
      by_cases hx : p x = true
      · rw [List.filter_cons_of_pos hx] at h
        injection h with h1 h2
        rw [List.find?_cons_of_pos _ hx, h1]
      · rw [List.filter_cons_of_neg hx] at h
        rw [List.find?_cons_of_neg _ hx]
        exact ih h

theorem filter_id_map_update (l : List InventoryItem) (itemId targetId : Nat) (q : ℚ) :
    (l.map (fun it => if it.id = targetId then { it with quantity := q } else it)).filter
        (fun it => it.id == itemId) =
      (l.filter (fun it => it.id == itemId)).map
        (fun it => if it.id = targetId then { it with quantity := q } else it) := by
  induction l with
  | nil => rfl
  | cons x xs ih =>
      have hid : ((if x.id = targetId then { x with quantity := q } else x) :
          InventoryItem).id = x.id := by
        by_cases ht : x.id = targetId <;> simp [ht]
      simp only [List.map_cons, List.filter_cons, hid]
      by_cases hx : (x.id == itemId) = true
      · simp [hx, ih]
      · simp [hx, ih]

theorem signedQuantity_eq (a : InventoryItem) (mtype : MovementType) (mq : ℚ)
    (iid : Nat) (cb : Option Nat) (n : String) :
    signedQuantity ⟨iid, mtype, mq, cb, n⟩ = movementNewQuantity a mtype mq - a.quantity := by
  cases mtype <;> simp only [signedQuantity, movementNewQuantity] <;> ring

theorem manualMovementById_step (db : DB) (itemId userId : Nat) (mtype : MovementType)
    (mq : ℚ) (mnotes : String) (a : InventoryItem) (db1 : DB)
    (hfil : db.inventory_items.filter (fun it => it.id == itemId) = [a])
    (hstep : manualMovementById db itemId mtype mq mnotes userId = (db1, none)) :
    (db1.inventory_items.filter (fun it => it.id == itemId)).map (fun it => it.quantity) =
      [movementNewQuantity a mtype mq] ∧
    signedSum db1 itemId = signedSum db itemId + (movementNewQuantity a mtype mq - a.quantity) := by
  have hfind : db.inventory_items.find? (fun it => it.id == itemId) = some a :=
    find?_of_filter_singleton _ _ _ hfil
  rw [manualMovementById, hfind] at hstep
  have hstep' : handleMovement db a mtype mq mnotes userId = (db1, none) := hstep
  have hpa : (a.id == itemId) = true := by
    have hmem : a ∈ db.inventory_items.filter (fun it => it.id == itemId) := by
      rw [hfil]; exact List.mem_singleton.mpr rfl
    exact (List.mem_filter.mp hmem).2
  by_cases h1 : mq ≤ 0
  · rw [handleMovement_nonpos db a mtype mq mnotes userId h1] at hstep'
    injection hstep' with ha hb
    cases hb
  · by_cases h2 : movementNewQuantity a mtype mq < 0
    · rw [handleMovement_insufficient db a mtype mq mnotes userId h1 h2] at hstep'
      injection hstep' with ha hb
      cases hb
    · rw [handleMovement_success db a mtype mq mnotes userId h1 h2] at hstep'
      injection hstep' with ha hb
      subst ha
      constructor
      · show ((db.inventory_items.map (fun it =>
          if it.id = a.id then { it with quantity := movementNewQuantity a mtype mq }
          else it)).filter (fun it => it.id == itemId)).map (fun it => it.quantity) = _
        rw [filter_id_map_update db.inventory_items itemId a.id
          (movementNewQuantity a mtype mq), hfil]
        simp
      · have hone : movementsFor
            ({ transactions := db.transactions
               transaction_items := db.transaction_items
               inventory_items := db.inventory_items.map (fun it =>
                 if it.id = a.id then
                   { it with quantity := movementNewQuantity a mtype mq } else it)
               inventory_movements := db.inventory_movements ++
                 [⟨a.id, mtype, mq, some userId, mnotes⟩] } : DB) itemId =
            movementsFor db itemId ++ [⟨a.id, mtype, mq, some userId, mnotes⟩] := by
          show (db.inventory_movements ++
            ([⟨a.id, mtype, mq, some userId, mnotes⟩] : List InventoryMovement)).filter
              (fun m => m.item_id == itemId) =
            db.inventory_movements.filter (fun m => m.item_id == itemId) ++
              ([⟨a.id, mtype, mq, some userId, mnotes⟩] : List InventoryMovement)
          rw [List.filter_append]
          congr 1
          simp [List.filter_cons, hpa]
        show signedSum _ itemId = _
        unfold signedSum
        rw [hone, List.map_append, List.sum_append]
        simp only [List.map_cons, List.map_nil, List.sum_cons, List.sum_nil]
        rw [signedQuantity_eq a mtype mq a.id (some userId) mnotes]
        ring

theorem runManualMovements_signedSum (itemId userId : Nat) :
    ∀ (reqs : List (MovementType × ℚ × String)) (db : DB) (q0 : ℚ) (db' : DB),
      (db.inventory_items.filter (fun it => it.id == itemId)).map (fun it => it.quantity) = [q0] →
      runManualMovements db itemId userId reqs = (db', none) →
      ∃ q1, (db'.inventory_items.filter (fun it => it.id == itemId)).map
          (fun it => it.quantity) = [q1] ∧
        signedSum db' itemId - signedSum db itemId = q1 - q0 := by
  intro reqs
  induction reqs with
  | nil =>
      intro db q0 db' hq hrun
      rw [runManualMovements] at hrun
      injection hrun with h1 h2
      subst h1
      exact ⟨q0, hq, by ring⟩
  | cons r rs ih =>
      intro db q0 db' hq hrun
      rw [runManualMovements] at hrun
      obtain ⟨a, hfil, hqa⟩ : ∃ a,
          db.inventory_items.filter (fun it => it.id == itemId) = [a] ∧ a.quantity = q0 := by
        cases hf : db.inventory_items.filter (fun it => it.id == itemId) with
        | nil => rw [hf] at hq; cases hq
        | cons x xs =>
            cases xs with
            | nil =>
                rw [hf] at hq
                injection hq with h1 h2
                exact ⟨x, rfl, h1⟩
            | cons y ys =>
                rw [hf] at hq
                injection hq with h1 h2
                cases h2
      cases hstep : manualMovementById db itemId r.1 r.2.1 r.2.2 userId with
      | mk db1 oe =>
          rw [hstep] at hrun
          cases oe with
          | some e =>
              injection hrun with h1 h2
              cases h2
          | none =>
              obtain ⟨hfil1, hsum1⟩ :=
                manualMovementById_step db itemId userId r.1 r.2.1 r.2.2 a db1 hfil hstep
              obtain ⟨q1, hq1, hs1⟩ := ih db1 (movementNewQuantity a r.1 r.2.1) db' hfil1 hrun
              refine ⟨q1, hq1, ?_⟩
              rw [hqa] at hsum1
              linarith

/-- C7: starting from a state where the item has exactly one row (quantity
S₀) and no movement rows, any successful sequence of manual `in`/`out`
movements leaves the item at some quantity S₁ with the sum of signed
quantities over all its movement rows (`in` positive, `out` negative) equal
to S₁ − S₀. -/
theorem manual_roundtrip (reqs : List (MovementType × ℚ × String)) (db : DB)
    (itemId userId : Nat) (q0 : ℚ) (db' : DB)
    (hq : (db.inventory_items.filter (fun it => it.id == itemId)).map
      (fun it => it.quantity) = [q0])
    (hmov : movementsFor db itemId = [])
    (hrun : runManualMovements db itemId userId reqs = (db', none)) :
    ∃ q1, (db'.inventory_items.filter (fun it => it.id == itemId)).map
        (fun it => it.quantity) = [q1] ∧
      signedSum db' itemId = q1 - q0 := by
  obtain ⟨q1, h1, h2⟩ := runManualMovements_signedSum itemId userId reqs db q0 db' hq hrun
  refine ⟨q1, h1, ?_⟩
  have h0 : signedSum db itemId = 0 := by
    unfold signedSum
    rw [hmov]
    rfl
  linarith

/-- State after running `[in 5, out 2]` against `stockDB`: quantity 8 and
two movement rows. -/
def roundtripDB : DB :=
  ⟨[], [], [⟨1, "Shampoo", none, 8, "un", none⟩],
    [⟨1, MovementType.inflow, 5, some 7, "compra"⟩,
     ⟨1, MovementType.outflow, 2, some 7, "venda"⟩]⟩

/-- Witness for C7: a concrete two-movement run (in 5 then out 2 from
stock 5) reaching quantity 8 with signed sum 3 = 8 − 5. -/
theorem manual_roundtrip_witness :
    (stockDB.inventory_items.filter (fun it => it.id == 1)).map
      (fun it => it.quantity) = [(5 : ℚ)] ∧
    movementsFor stockDB 1 = [] ∧
    runManualMovements stockDB 1 7
      [(MovementType.inflow, 5, "compra"), (MovementType.outflow, 2, "venda")] =
      (roundtripDB, none) ∧
    ∃ q1, (roundtripDB.inventory_items.filter (fun it => it.id == 1)).map
        (fun it => it.quantity) = [q1] ∧
      signedSum roundtripDB 1 = q1 - 5 :=
  ⟨by decide, by decide,
   by norm_num [runManualMovements, manualMovementById, List.find?, handleMovement,
     movementInsertPhase, itemUpdatePhase, movementNewQuantity, stockDB, stockItem, roundtripDB],
   manual_roundtrip
     [(MovementType.inflow, 5, "compra"), (MovementType.outflow, 2, "venda")]
     stockDB 1 7 5 roundtripDB (by decide) (by decide)
     (by norm_num [runManualMovements, manualMovementById, List.find?, handleMovement,
       movementInsertPhase, itemUpdatePhase, movementNewQuantity, stockDB, stockItem,
       roundtripDB])⟩

/-- State of `stockDB` after the movement insert of an `out 2` request but
before the item update: the movement row persisted, quantities untouched. -/
def stockDB1 : DB :=
  ⟨[], [], [stockItem], [⟨1, MovementType.outflow, 2, some 7, "venda"⟩]⟩

/-- Witness for C8: the write-order theorem applied to a rejected request
(Q = −1, state unchanged) and to a successful `out 2` request whose
intermediate state is `stockDB1`. -/
theorem manual_movement_write_order_witness :
    (movementInsertPhase stockDB stockItem MovementType.outflow (-1) "" 7).1 = stockDB ∧
    (stockDB1.inventory_items = stockDB.inventory_items ∧
     stockDB1.inventory_movements = stockDB.inventory_movements ++
       [⟨stockItem.id, MovementType.outflow, 2, some 7, "venda"⟩] ∧
     handleMovement stockDB stockItem MovementType.outflow 2 "venda" 7 =
       (itemUpdatePhase stockDB1 stockItem.id
         (movementNewQuantity stockItem MovementType.outflow 2), none)) :=
  ⟨(manual_movement_write_order stockDB stockItem MovementType.outflow (-1) "" 7).1
     (by decide),
   (manual_movement_write_order stockDB stockItem MovementType.outflow 2 "venda" 7).2
     stockDB1
     (by norm_num [movementInsertPhase, movementNewQuantity, stockDB, stockItem, stockDB1])⟩
